import Mathlib

/-!
Verification of the rate-limit handling core of the TrainingPortal test
repository, a shallow embedding of `src/tests/api_async/base_api_test.py`
(classes `ApiResponse`, `RateLimitMetrics`, `PlaywrightApiClient`) plus a
spec-modelled fragment for the sync client `tests/api/base_api_test.py`
whose source is only witnessed by its tests.

Floating-point values of the Python source are modelled as rationals (ℚ);
`random.uniform(0.8, 1.2)` draws and wall-clock readings are supplied by
oracles so that every definition stays a pure function of its inputs.
-/

namespace TrainingPortal

/-- Python `dict.get` on a string-keyed header dictionary, modelled as
first-match lookup in an association list. -/
def headersGet : List (String × String) → String → Option String
  | [], _ => none
  | (k, v) :: rest, name => if k = name then some v else headersGet rest name

/-- Accumulate a decimal digit string into a natural number; `none` when the
string is empty or contains a non-digit (the `ValueError` path of Python
`float`). -/
def parseNatDigits : List Char → Option Nat
  | [] => none
  | cs => cs.foldlM (fun n c => if c.isDigit then some (n * 10 + (c.toNat - 48)) else none) 0

/-- Model of Python `float(s)` as used on `Retry-After` values, restricted to
optionally signed decimal integer literals (the forms the repository's tests
exercise); `none` models the raised `ValueError`. -/
def pyFloat (s : String) : Option ℚ :=
  match s.toList with
  | '-' :: rest => (parseNatDigits rest).map (fun n => -(n : ℚ))
  | '+' :: rest => (parseNatDigits rest).map (fun n => (n : ℚ))
  | cs => (parseNatDigits cs).map (fun n => (n : ℚ))

/-- `ApiResponse` (base_api_test.py lines 44-52): one HTTP response envelope.
The JSON body is modelled as a key/value list; no claim inspects it. -/
structure ApiResponse where
  status_code : ℤ
  body : List (String × String)
  headers : List (String × String)
  elapsed_ms : ℚ
  retry_count : Nat
  was_rate_limited : Bool
deriving DecidableEq, Repr

/-- `ApiResponse.is_rate_limited` (line 66-68). -/
def ApiResponse.is_rate_limited (r : ApiResponse) : Bool :=
  r.status_code = 429

/-- Line 81: `self.headers.get("Retry-After", self.headers.get("retry-after"))`. -/
def ApiResponse.retry_after_header (r : ApiResponse) : Option String :=
  match headersGet r.headers "Retry-After" with
  | some v => some v
  | none => headersGet r.headers "retry-after"

/-- `ApiResponse.get_retry_after_seconds` (lines 70-95).
`parseHTTPDate` abstracts `datetime.strptime(v, "%a, %d %b %Y %H:%M:%S %Z")`
(absolute time in seconds, `none` on `ValueError`), `utcnow` abstracts
`datetime.utcnow()`.  The Python guard `if not retry_after` is falsy exactly
on `None` and on the empty string. -/
def ApiResponse.get_retry_after_seconds (parseHTTPDate : String → Option ℚ)
    (utcnow : ℚ) (r : ApiResponse) : Option ℚ :=
  match r.retry_after_header with
  | none => none
  | some v =>
    if v = "" then none
    else
      match pyFloat v with
      | some x => some x
      | none =>
        match parseHTTPDate v with
        | some d => some (max 0 (d - utcnow))
        | none => none

/-- `RateLimitMetrics` (lines 204-218); timestamps are rational time stamps. -/
structure RateLimitMetrics where
  total_rate_limited : Nat
  total_retries : Nat
  total_backoff_seconds : ℚ
  max_backoff_seconds : ℚ
  rate_limit_timestamps : List ℚ
deriving DecidableEq, Repr

/-- The freshly constructed collector: every field at its dataclass default. -/
def RateLimitMetrics.init : RateLimitMetrics :=
  { total_rate_limited := 0, total_retries := 0, total_backoff_seconds := 0,
    max_backoff_seconds := 0, rate_limit_timestamps := [] }

/-- `RateLimitMetrics.record_rate_limit` (lines 213-218); `now` is the
`datetime.now()` reading appended to the timestamp list. -/
def RateLimitMetrics.record_rate_limit (m : RateLimitMetrics) (now backoff_seconds : ℚ) :
    RateLimitMetrics :=
  { m with
    total_rate_limited := m.total_rate_limited + 1,
    total_backoff_seconds := m.total_backoff_seconds + backoff_seconds,
    max_backoff_seconds := max m.max_backoff_seconds backoff_seconds,
    rate_limit_timestamps := m.rate_limit_timestamps ++ [now] }

/-- `RateLimitMetrics.record_retry` (lines 220-222). -/
def RateLimitMetrics.record_retry (m : RateLimitMetrics) : RateLimitMetrics :=
  { m with total_retries := m.total_retries + 1 }

/-- `PlaywrightApiClient` class constants (lines 254-260), gathered into the
spec's `RetryPolicyConfig`. -/
structure RetryPolicyConfig where
  maxRetries : Nat
  initialBackoffSeconds : ℚ
  maxBackoffSeconds : ℚ
  backoffMultiplier : ℚ
  jitterEnabled : Bool
  circuitBreakerThreshold : Nat
deriving DecidableEq, Repr

/-- The constants of `PlaywrightApiClient`: MAX_RETRIES = 3,
INITIAL_BACKOFF_SECONDS = 1.0, MAX_BACKOFF_SECONDS = 30.0,
BACKOFF_MULTIPLIER = 2.0, ENABLE_JITTER = True,
CIRCUIT_BREAKER_THRESHOLD = 5. -/
def defaultConfig : RetryPolicyConfig :=
  { maxRetries := 3, initialBackoffSeconds := 1, maxBackoffSeconds := 30,
    backoffMultiplier := 2, jitterEnabled := true, circuitBreakerThreshold := 5 }

/-- Backoff computation of `_handle_rate_limit` (lines 397-409).
`jitterFactor` stands for the `random.uniform(0.8, 1.2)` draw; it is only
used when `jitterEnabled`. -/
def computeBackoff (cfg : RetryPolicyConfig) (attempt : Nat)
    (retry_after : Option ℚ) (jitterFactor : ℚ) : ℚ :=
  let backoff_seconds :=
    match retry_after with
    | some h => min h cfg.maxBackoffSeconds
    | none => min (cfg.initialBackoffSeconds * cfg.backoffMultiplier ^ attempt)
        cfg.maxBackoffSeconds
  if cfg.jitterEnabled then backoff_seconds * jitterFactor else backoff_seconds

/-- The backoff formula exactly as the specification words it (§4.1
`computeBackoff`): hint present ⇒ `min(hint, maxBackoffSeconds)`, otherwise
`min(initialBackoffSeconds * backoffMultiplier^attempt, maxBackoffSeconds)`,
then multiplied by the jitter factor when jitter is enabled.  Kept separate
from `computeBackoff` so the code can be compared against the spec. -/
def computeBackoffSpec (cfg : RetryPolicyConfig) (attempt : Nat)
    (retryAfterHint : Option ℚ) (jitterFactor : ℚ) : ℚ :=
  match retryAfterHint with
  | some h =>
    if cfg.jitterEnabled then min h cfg.maxBackoffSeconds * jitterFactor
    else min h cfg.maxBackoffSeconds
  | none =>
    if cfg.jitterEnabled then
      min (cfg.initialBackoffSeconds * cfg.backoffMultiplier ^ attempt)
        cfg.maxBackoffSeconds * jitterFactor
    else
      min (cfg.initialBackoffSeconds * cfg.backoffMultiplier ^ attempt)
        cfg.maxBackoffSeconds

/-- One simulated wire response of the transport (`page.fetch` plus the
response extraction of `_make_request`, lines 314-327). -/
structure SimResp where
  status_code : ℤ
  body : List (String × String)
  headers : List (String × String)
  elapsed_ms : ℚ
deriving DecidableEq, Repr

/-- Oracle bundling every effectful input of the client:
`resp method attempt` is the wire response of the physical attempt with the
given index, `jitter attempt` the `random.uniform(0.8, 1.2)` draw made while
handling a 429 at that attempt, `clock attempt` the `datetime.now()` reading
of `record_rate_limit` there, `utc attempt` the `datetime.utcnow()` reading
of `get_retry_after_seconds`, and `parseHTTPDate` the HTTP-date parser. -/
structure Transport where
  resp : String → Nat → SimResp
  jitter : Nat → ℚ
  clock : Nat → ℚ
  utc : Nat → ℚ
  parseHTTPDate : String → Option ℚ

/-- The mutable client session state: `self.metrics` and
`self.consecutive_rate_limits` (lines 269-270). -/
structure ClientState where
  metrics : RateLimitMetrics
  consecutive_rate_limits : Nat
deriving DecidableEq, Repr

/-- The fresh client state built by `PlaywrightApiClient.__init__`. -/
def ClientState.init : ClientState :=
  { metrics := RateLimitMetrics.init, consecutive_rate_limits := 0 }

/-- The provisional envelope `_make_request` builds for the physical attempt
with index `attempt` (lines 330-336): `retry_count = attempt`,
`was_rate_limited` at its dataclass default `False`. -/
def envelopeOf (t : Transport) (method : String) (attempt : Nat) : ApiResponse :=
  { status_code := (t.resp method attempt).status_code,
    body := (t.resp method attempt).body,
    headers := (t.resp method attempt).headers,
    elapsed_ms := (t.resp method attempt).elapsed_ms,
    retry_count := attempt,
    was_rate_limited := false }

mutual

/-- `PlaywrightApiClient._make_request` (lines 272-347): dispatch attempt
`attempt`, on 429 hand over to `_handle_rate_limit`, otherwise reset the
circuit breaker and return the envelope. -/
def makeRequest (cfg : RetryPolicyConfig) (t : Transport) (method : String)
    (st : ClientState) (attempt : Nat) : ApiResponse × ClientState :=
  let api_response := envelopeOf t method attempt
  if api_response.status_code = 429 then
    handleRateLimit cfg t method st attempt api_response
  else
    (api_response, { st with consecutive_rate_limits := 0 })
termination_by (cfg.maxRetries + 1 - attempt, 1)
decreasing_by exact Prod.Lex.right _ (by omega)

/-- `PlaywrightApiClient._handle_rate_limit` (lines 353-425): increment the
consecutive-429 counter, record the rate limit (with backoff argument 0),
fail fast on the circuit breaker or an exhausted retry budget, otherwise
compute the backoff, record the retry, accumulate the wait and retry. -/
def handleRateLimit (cfg : RetryPolicyConfig) (t : Transport) (method : String)
    (st : ClientState) (attempt : Nat) (response : ApiResponse) :
    ApiResponse × ClientState :=
  let st1 : ClientState :=
    { metrics := st.metrics.record_rate_limit (t.clock attempt) 0,
      consecutive_rate_limits := st.consecutive_rate_limits + 1 }
  if cfg.circuitBreakerThreshold ≤ st1.consecutive_rate_limits then
    ({ response with was_rate_limited := true }, st1)
  else if h : cfg.maxRetries ≤ attempt then
    ({ response with was_rate_limited := true }, st1)
  else
    let retry_after := response.get_retry_after_seconds t.parseHTTPDate (t.utc attempt)
    let backoff_seconds := computeBackoff cfg attempt retry_after (t.jitter attempt)
    let st2 : ClientState :=
      { st1 with metrics :=
          let m := st1.metrics.record_retry
          { m with total_backoff_seconds := m.total_backoff_seconds + backoff_seconds } }
    makeRequest cfg t method st2 (attempt + 1)
termination_by (cfg.maxRetries + 1 - attempt, 0)
decreasing_by exact Prod.Lex.left _ _ (by omega)

end

/-- The hint `_handle_rate_limit` extracts at attempt `a`. -/
def hintAt (t : Transport) (method : String) (a : Nat) : Option ℚ :=
  (envelopeOf t method a).get_retry_after_seconds t.parseHTTPDate (t.utc a)

/-- The wait `_handle_rate_limit` computes at attempt `a`. -/
def backoffAt (cfg : RetryPolicyConfig) (t : Transport) (method : String) (a : Nat) : ℚ :=
  computeBackoff cfg a (hintAt t method a) (t.jitter a)

/-- Shorthand for the state `_handle_rate_limit` installs before its early
returns: counter incremented, rate limit recorded with backoff 0. -/
def bumpState (t : Transport) (st : ClientState) (a : Nat) : ClientState :=
  { metrics := st.metrics.record_rate_limit (t.clock a) 0,
    consecutive_rate_limits := st.consecutive_rate_limits + 1 }

/-- Shorthand for the state passed into the retry of attempt `a + 1`:
`bumpState` plus the recorded retry and the directly accumulated wait. -/
def retryState (cfg : RetryPolicyConfig) (t : Transport) (method : String)
    (st : ClientState) (a : Nat) : ClientState :=
  { metrics :=
      let m := (bumpState t st a).metrics.record_retry
      { m with total_backoff_seconds :=
          m.total_backoff_seconds + backoffAt cfg t method a },
    consecutive_rate_limits := (bumpState t st a).consecutive_rate_limits }

lemma envelopeOf_status_code (t : Transport) (method : String) (a : Nat) :
    (envelopeOf t method a).status_code = (t.resp method a).status_code := rfl

/-- Step lemma: a non-429 response returns its envelope at once and resets
the circuit-breaker counter. -/
lemma makeRequest_not429 (cfg : RetryPolicyConfig) (t : Transport) (method : String)
    (st : ClientState) (a : Nat) (h : (t.resp method a).status_code ≠ 429) :
    makeRequest cfg t method st a =
      (envelopeOf t method a, { st with consecutive_rate_limits := 0 }) := by
  rw [makeRequest]
  simp only [envelopeOf_status_code, if_neg h]

/-- Step lemma: on a 429 that trips the circuit breaker or exhausts the
retry budget, the client returns the 429 envelope at once, flagged
`was_rate_limited`, with only the counter bump and the zero-backoff
rate-limit record applied to the state. -/
lemma makeRequest_stop (cfg : RetryPolicyConfig) (t : Transport) (method : String)
    (st : ClientState) (a : Nat) (h : (t.resp method a).status_code = 429)
    (hstop : cfg.circuitBreakerThreshold ≤ st.consecutive_rate_limits + 1 ∨
      cfg.maxRetries ≤ a) :
    makeRequest cfg t method st a =
      ({ envelopeOf t method a with was_rate_limited := true }, bumpState t st a) := by
  rw [makeRequest]
  simp only [envelopeOf_status_code, if_pos h]
  rw [handleRateLimit]
  rcases hstop with hbrk | hbudget
  · simp only [bumpState, if_pos hbrk]
    rfl
  · by_cases hbrk : cfg.circuitBreakerThreshold ≤ st.consecutive_rate_limits + 1
    · simp only [bumpState, if_pos hbrk]
      rfl
    · simp only [bumpState, if_neg hbrk, dif_pos hbudget]
      rfl

/-- Step lemma: on a 429 with breaker untripped and budget remaining, the
client recurses at attempt `a + 1` with the bumped state, the recorded
retry and the accumulated wait. -/
lemma makeRequest_continue (cfg : RetryPolicyConfig) (t : Transport) (method : String)
    (st : ClientState) (a : Nat) (h : (t.resp method a).status_code = 429)
    (hbrk : st.consecutive_rate_limits + 1 < cfg.circuitBreakerThreshold)
    (hlt : a < cfg.maxRetries) :
    makeRequest cfg t method st a =
      makeRequest cfg t method (retryState cfg t method st a) (a + 1) := by
  rw [makeRequest]
  simp only [envelopeOf_status_code, if_pos h]
  rw [handleRateLimit]
  simp only [if_neg (not_le.mpr hbrk), dif_neg (not_le.mpr hlt)]
  rfl

/-- Retry-budget bound: a logical request entered at attempt index
`a ≤ maxRetries` returns an envelope whose `retry_count` never exceeds
`maxRetries`.  `fuel` bounds the recursion depth for the induction. -/
lemma makeRequest_retry_count_le (fuel : Nat) :
    ∀ (cfg : RetryPolicyConfig) (t : Transport) (method : String)
      (st : ClientState) (a : Nat),
      cfg.maxRetries + 1 - a ≤ fuel → a ≤ cfg.maxRetries →
      (makeRequest cfg t method st a).1.retry_count ≤ cfg.maxRetries := by
  induction fuel with
  | zero => intro cfg t method st a hf ha; omega
  | succ k ih =>
    intro cfg t method st a hf ha
    by_cases h429 : (t.resp method a).status_code = 429
    · by_cases hstop : cfg.circuitBreakerThreshold ≤ st.consecutive_rate_limits + 1 ∨
        cfg.maxRetries ≤ a
      · rw [makeRequest_stop cfg t method st a h429 hstop]
        simpa [envelopeOf] using ha
      · push_neg at hstop
        obtain ⟨hbrk, hbudget⟩ := hstop
        rw [makeRequest_continue cfg t method st a h429 hbrk hbudget]
        exact ih cfg t method _ (a + 1) (by omega) (by omega)
    · rw [makeRequest_not429 cfg t method st a h429]
      simpa [envelopeOf] using ha

/-- `retryState` routes the computed wait into `total_backoff_seconds`
directly, so its `max_backoff_seconds` only sees the `record_rate_limit 0`
call. -/
lemma retryState_max_backoff (cfg : RetryPolicyConfig) (t : Transport)
    (method : String) (st : ClientState) (a : Nat) :
    (retryState cfg t method st a).metrics.max_backoff_seconds =
      max st.metrics.max_backoff_seconds 0 := by
  simp [retryState, bumpState, RateLimitMetrics.record_retry,
    RateLimitMetrics.record_rate_limit]

/-- Frame invariant: the retry loop never raises `max_backoff_seconds`
above its starting value 0. -/
lemma makeRequest_max_backoff_zero (fuel : Nat) :
    ∀ (cfg : RetryPolicyConfig) (t : Transport) (method : String)
      (st : ClientState) (a : Nat),
      cfg.maxRetries + 1 - a ≤ fuel →
      st.metrics.max_backoff_seconds = 0 →
      (makeRequest cfg t method st a).2.metrics.max_backoff_seconds = 0 := by
  induction fuel with
  | zero =>
    intro cfg t method st a hf h0
    by_cases h429 : (t.resp method a).status_code = 429
    · rw [makeRequest_stop cfg t method st a h429 (Or.inr (by omega))]
      simp [bumpState, RateLimitMetrics.record_rate_limit, h0]
    · rw [makeRequest_not429 cfg t method st a h429]
      exact h0
  | succ k ih =>
    intro cfg t method st a hf h0
    by_cases h429 : (t.resp method a).status_code = 429
    · by_cases hstop : cfg.circuitBreakerThreshold ≤ st.consecutive_rate_limits + 1 ∨
        cfg.maxRetries ≤ a
      · rw [makeRequest_stop cfg t method st a h429 hstop]
        simp [bumpState, RateLimitMetrics.record_rate_limit, h0]
      · push_neg at hstop
        obtain ⟨hbrk, hbudget⟩ := hstop
        rw [makeRequest_continue cfg t method st a h429 hbrk hbudget]
        refine ih cfg t method _ (a + 1) (by omega) ?_
        rw [retryState_max_backoff, h0]
        simp
    · rw [makeRequest_not429 cfg t method st a h429]
      exact h0

/-- `PlaywrightApiClient` configured as in the source but with
`ENABLE_JITTER = False`, the deterministic override the repository's own
tests use. -/
def noJitterConfig : RetryPolicyConfig :=
  { defaultConfig with jitterEnabled := false }

/-- A transport whose every response is a bare 429 with no headers, jitter
draws fixed at 1 and clocks fixed at 0. -/
def t429 : Transport :=
  { resp := fun _ _ => { status_code := 429, body := [], headers := [], elapsed_ms := 0 },
    jitter := fun _ => 1, clock := fun _ => 0, utc := fun _ => 0,
    parseHTTPDate := fun _ => none }

/-- Envelope carrying `Retry-After: 120`. -/
def env120 : ApiResponse :=
  { status_code := 429, body := [], headers := [("Retry-After", "120")],
    elapsed_ms := 0, retry_count := 0, was_rate_limited := false }

/-- Envelope carrying `Retry-After: 0`. -/
def env0 : ApiResponse :=
  { status_code := 429, body := [], headers := [("Retry-After", "0")],
    elapsed_ms := 0, retry_count := 0, was_rate_limited := false }

/-- Envelope with no headers at all. -/
def envNoHeader : ApiResponse :=
  { status_code := 429, body := [], headers := [],
    elapsed_ms := 0, retry_count := 0, was_rate_limited := false }

/-- Envelope carrying an empty `Retry-After` value. -/
def envEmpty : ApiResponse :=
  { status_code := 429, body := [], headers := [("Retry-After", "")],
    elapsed_ms := 0, retry_count := 0, was_rate_limited := false }

/-- Envelope carrying `Retry-After: -5`, a negative delta-seconds value. -/
def envNeg : ApiResponse :=
  { status_code := 429, body := [], headers := [("Retry-After", "-5")],
    elapsed_ms := 0, retry_count := 0, was_rate_limited := false }

/-- Envelope carrying the header only under the casing `RETRY-AFTER`. -/
def envUpper : ApiResponse :=
  { status_code := 429, body := [], headers := [("RETRY-AFTER", "120")],
    elapsed_ms := 0, retry_count := 0, was_rate_limited := false }

/-- Envelope carrying an HTTP-date `Retry-After` value. -/
def envDate : ApiResponse :=
  { status_code := 429, body := [],
    headers := [("Retry-After", "Wed, 21 Oct 2025 07:28:00 GMT")],
    elapsed_ms := 0, retry_count := 0, was_rate_limited := false }

/-- C1: for every configuration, attempt index, optional hint and jitter
draw, the code's backoff computation agrees with the specification's
formula — `min(hint, maxBackoffSeconds)` when a hint is present, otherwise
`min(initialBackoffSeconds * backoffMultiplier^attempt, maxBackoffSeconds)`,
the result multiplied by the jitter factor when jitter is enabled — and
whenever a hint is present the result does not depend on the attempt index,
i.e. it is derived from the hint and not from the exponential formula. -/
theorem computeBackoff_matches_spec :
    (∀ (cfg : RetryPolicyConfig) (a : Nat) (hint : Option ℚ) (j : ℚ),
      computeBackoff cfg a hint j = computeBackoffSpec cfg a hint j) ∧
    (∀ (cfg : RetryPolicyConfig) (a b : Nat) (h j : ℚ),
      computeBackoff cfg a (some h) j = computeBackoff cfg b (some h) j) := by
  constructor
  · intro cfg a hint j
    cases hint <;> simp [computeBackoff, computeBackoffSpec]
  · intro cfg a b h j
    simp [computeBackoff]

/-- C7: with jitter disabled and the source's configuration constants, the
hint-free backoff is non-decreasing in the attempt index and saturates at
`MAX_BACKOFF_SECONDS = 30` from attempt 5 on (where `1 * 2^n` first
exceeds 30). -/
theorem computeBackoff_monotone_saturates :
    ∀ n : Nat,
      computeBackoff noJitterConfig n none 1 ≤
        computeBackoff noJitterConfig (n + 1) none 1 ∧
      (5 ≤ n → computeBackoff noJitterConfig n none 1 = 30) := by
  have hval : ∀ m : Nat, computeBackoff noJitterConfig m none 1 = min ((2 : ℚ) ^ m) 30 := by
    intro m
    simp [computeBackoff, noJitterConfig, defaultConfig]
  intro n
  refine ⟨?_, ?_⟩
  · rw [hval, hval]
    exact min_le_min (pow_le_pow_right₀ one_le_two (Nat.le_succ n)) le_rfl
  · intro h5
    rw [hval]
    refine min_eq_right ?_
    calc (30 : ℚ) ≤ 2 ^ 5 := by norm_num
    _ ≤ 2 ^ n := pow_le_pow_right₀ one_le_two h5

/-- Witness for `computeBackoff_monotone_saturates` at `n = 5`. -/
theorem computeBackoff_monotone_saturates_witness :
    computeBackoff noJitterConfig 5 none 1 ≤ computeBackoff noJitterConfig 6 none 1 ∧
      computeBackoff noJitterConfig 5 none 1 = 30 :=
  ⟨(computeBackoff_monotone_saturates 5).1,
    (computeBackoff_monotone_saturates 5).2 (by decide)⟩

/-- C9: `record_rate_limit b` increments `total_rate_limited` by exactly 1,
adds `b` to `total_backoff_seconds`, sets `max_backoff_seconds` to the
maximum of its previous value and `b`, appends exactly one timestamp and
leaves `total_retries` alone; `record_retry` increments `total_retries` by
exactly 1 and leaves the other counters alone; neither operation decreases
any counter. -/
theorem metrics_record_operations :
    ∀ (m : RateLimitMetrics) (now b : ℚ),
      (m.record_rate_limit now b).total_rate_limited = m.total_rate_limited + 1 ∧
      (m.record_rate_limit now b).total_backoff_seconds = m.total_backoff_seconds + b ∧
      (m.record_rate_limit now b).max_backoff_seconds = max m.max_backoff_seconds b ∧
      (m.record_rate_limit now b).rate_limit_timestamps =
        m.rate_limit_timestamps ++ [now] ∧
      (m.record_rate_limit now b).total_retries = m.total_retries ∧
      m.record_retry.total_retries = m.total_retries + 1 ∧
      m.record_retry.total_rate_limited = m.total_rate_limited ∧
      m.record_retry.total_backoff_seconds = m.total_backoff_seconds ∧
      m.record_retry.max_backoff_seconds = m.max_backoff_seconds ∧
      m.total_rate_limited ≤ (m.record_rate_limit now b).total_rate_limited ∧
      m.total_retries ≤ m.record_retry.total_retries ∧
      m.max_backoff_seconds ≤ (m.record_rate_limit now b).max_backoff_seconds := by
  intro m now b
  simp [RateLimitMetrics.record_rate_limit, RateLimitMetrics.record_retry,
    le_max_left]

/-- C4 counterexample: the header parser accepts the negative delta-seconds
value `-5` (Python `float("-5")` succeeds), and feeding that hint to the
backoff computation yields `min(-5, 30) * 1 = -5 < 0` — with the jitter
draw 1, which lies in [0.8, 1.2] — so the computed backoff CAN be
negative, contrary to the claim. -/
theorem computeBackoff_negative_counterexample :
    envNeg.get_retry_after_seconds (fun _ => none) 0 = some (-5) ∧
      computeBackoff defaultConfig 0 (some (-5)) 1 < 0 ∧
      (0.8 : ℚ) ≤ 1 ∧ (1 : ℚ) ≤ 1.2 := by
  refine ⟨by decide, ?_, by norm_num, by norm_num⟩
  have e : computeBackoff defaultConfig 0 (some (-5)) 1 = min (-5 : ℚ) 30 * 1 := by
    simp [computeBackoff, defaultConfig]
  rw [e]
  norm_num

/-- C4 amended: for every attempt index, every jitter draw in [0.8, 1.2]
and every hint that is absent or non-negative, the computed backoff lies in
`[0, maxBackoffSeconds * 1.2]` with jitter enabled and in
`[0, maxBackoffSeconds]` with jitter disabled (a negative parsed hint,
however, yields a negative backoff — see the counterexample). -/
theorem computeBackoff_bounds :
    ∀ (n : Nat) (hint : Option ℚ) (j : ℚ),
      (0.8 : ℚ) ≤ j → j ≤ (1.2 : ℚ) →
      (hint = none ∨ ∃ h, hint = some h ∧ 0 ≤ h) →
      (0 ≤ computeBackoff defaultConfig n hint j ∧
        computeBackoff defaultConfig n hint j ≤ 30 * 1.2) ∧
      (0 ≤ computeBackoff noJitterConfig n hint j ∧
        computeBackoff noJitterConfig n hint j ≤ 30) := by
  intro n hint j hj0 hj1 hhint
  have hjpos : (0 : ℚ) ≤ j := le_trans (by norm_num) hj0
  rcases hhint with rfl | ⟨h, rfl, h0⟩
  · have e1 : computeBackoff defaultConfig n none j = min ((2 : ℚ) ^ n) 30 * j := by
      simp [computeBackoff, defaultConfig]
    have e2 : computeBackoff noJitterConfig n none j = min ((2 : ℚ) ^ n) 30 := by
      simp [computeBackoff, noJitterConfig, defaultConfig]
    have hb0 : (0 : ℚ) ≤ min ((2 : ℚ) ^ n) 30 := le_min (by positivity) (by norm_num)
    have hb1 : min ((2 : ℚ) ^ n) 30 ≤ 30 := min_le_right _ _
    rw [e1, e2]
    exact ⟨⟨mul_nonneg hb0 hjpos, mul_le_mul hb1 hj1 hjpos (by norm_num)⟩, hb0, hb1⟩
  · have e1 : computeBackoff defaultConfig n (some h) j = min h 30 * j := by
      simp [computeBackoff, defaultConfig]
    have e2 : computeBackoff noJitterConfig n (some h) j = min h 30 := by
      simp [computeBackoff, noJitterConfig, defaultConfig]
    have hb0 : (0 : ℚ) ≤ min h 30 := le_min h0 (by norm_num)
    have hb1 : min h 30 ≤ 30 := min_le_right _ _
    rw [e1, e2]
    exact ⟨⟨mul_nonneg hb0 hjpos, mul_le_mul hb1 hj1 hjpos (by norm_num)⟩, hb0, hb1⟩

/-- Witness for `computeBackoff_bounds` at attempt 2 with the very large
hint 99999 and jitter draw 1. -/
theorem computeBackoff_bounds_witness :
    (0 ≤ computeBackoff defaultConfig 2 (some 99999) 1 ∧
      computeBackoff defaultConfig 2 (some 99999) 1 ≤ 30 * 1.2) ∧
      (0 ≤ computeBackoff noJitterConfig 2 (some 99999) 1 ∧
        computeBackoff noJitterConfig 2 (some 99999) 1 ≤ 30) :=
  computeBackoff_bounds 2 (some 99999) 1 (by norm_num) (by norm_num)
    (Or.inr ⟨99999, rfl, by norm_num⟩)

/-- C5: the header parser is a total function — every outcome is `some` or
`none`, never an exception — with: `"120"` parsed to 120, `"0"` parsed to
0, a missing header and an empty value both yielding `none`, a value that
fails the float parse but parses as an HTTP-date yielding
`max(0, date - utcnow)` (hence non-negative), and a value failing both
parses yielding `none`. -/
theorem get_retry_after_seconds_behavior :
    (∀ (pd : String → Option ℚ) (u : ℚ),
      env120.get_retry_after_seconds pd u = some 120) ∧
    (∀ (pd : String → Option ℚ) (u : ℚ),
      env0.get_retry_after_seconds pd u = some 0) ∧
    (∀ (pd : String → Option ℚ) (u : ℚ),
      envNoHeader.get_retry_after_seconds pd u = none) ∧
    (∀ (pd : String → Option ℚ) (u : ℚ),
      envEmpty.get_retry_after_seconds pd u = none) ∧
    (∀ (pd : String → Option ℚ) (u : ℚ) (r : ApiResponse) (v : String) (d : ℚ),
      r.retry_after_header = some v → v ≠ "" → pyFloat v = none → pd v = some d →
      r.get_retry_after_seconds pd u = some (max 0 (d - u)) ∧ 0 ≤ max 0 (d - u)) ∧
    (∀ (pd : String → Option ℚ) (u : ℚ) (r : ApiResponse) (v : String),
      r.retry_after_header = some v → pyFloat v = none → pd v = none →
      r.get_retry_after_seconds pd u = none) ∧
    (∀ (pd : String → Option ℚ) (u : ℚ) (r : ApiResponse),
      r.retry_after_header = none → r.get_retry_after_seconds pd u = none) := by
  refine ⟨fun pd u => rfl, fun pd u => rfl, fun pd u => rfl,
    fun pd u => rfl, ?_, ?_, ?_⟩
  · intro pd u r v d hlook hne hfloat hdate
    refine ⟨?_, le_max_left 0 (d - u)⟩
    simp only [ApiResponse.get_retry_after_seconds, hlook, if_neg hne, hfloat, hdate]
  · intro pd u r v hlook hfloat hdate
    by_cases hne : v = ""
    · subst hne
      simp only [ApiResponse.get_retry_after_seconds, hlook]
      rfl
    · simp only [ApiResponse.get_retry_after_seconds, hlook, if_neg hne, hfloat, hdate]
  · intro pd u r hlook
    simp only [ApiResponse.get_retry_after_seconds, hlook]

/-- Witness for `get_retry_after_seconds_behavior`: its HTTP-date clause at
a concrete date parser returning absolute time 7 and `utcnow = 3`. -/
theorem get_retry_after_seconds_behavior_witness :
    envDate.get_retry_after_seconds (fun _ => some 7) 3 = some (max 0 ((7 : ℚ) - 3)) ∧
      (0 : ℚ) ≤ max 0 ((7 : ℚ) - 3) :=
  get_retry_after_seconds_behavior.2.2.2.2.1 (fun _ => some 7) 3 envDate
    "Wed, 21 Oct 2025 07:28:00 GMT" 7 (by decide) (by decide) (by decide) rfl

/-- C8 counterexample: the value `"120"` is perfectly parseable, yet an
envelope carrying it only under the casing `RETRY-AFTER` yields absent —
the lookup on line 81 checks exactly the two spellings `Retry-After` and
`retry-after`, not case-insensitively. -/
theorem retry_after_casing_counterexample :
    pyFloat "120" = some 120 ∧
      envUpper.get_retry_after_seconds (fun _ => none) 0 = none := by
  decide

/-- C8 amended: the lookup finds the header exactly under the spellings
`Retry-After` (preferred) and `retry-after` (fallback); for an envelope
carrying a float-parseable value under one of those two spellings the
parsed value is returned. -/
theorem retry_after_exact_casings :
    ∀ (pd : String → Option ℚ) (u : ℚ) (r : ApiResponse) (v : String) (x : ℚ),
      pyFloat v = some x →
      (headersGet r.headers "Retry-After" = some v ∨
        (headersGet r.headers "Retry-After" = none ∧
          headersGet r.headers "retry-after" = some v)) →
      r.get_retry_after_seconds pd u = some x := by
  intro pd u r v x hx hlook
  have hne : v ≠ "" := by
    rintro rfl
    rw [show pyFloat "" = none from rfl] at hx
    exact Option.noConfusion hx
  have hheader : r.retry_after_header = some v := by
    rcases hlook with h | ⟨h1, h2⟩
    · simp [ApiResponse.retry_after_header, h]
    · simp [ApiResponse.retry_after_header, h1, h2]
  simp only [ApiResponse.get_retry_after_seconds, hheader, if_neg hne, hx]

/-- Witness for `retry_after_exact_casings` on the lower-case spelling. -/
theorem retry_after_exact_casings_witness :
    ApiResponse.get_retry_after_seconds (fun _ => none) 0
      { status_code := 429, body := [], headers := [("retry-after", "120")],
        elapsed_ms := 0, retry_count := 0, was_rate_limited := false } = some 120 :=
  retry_after_exact_casings (fun _ => none) 0
    { status_code := 429, body := [], headers := [("retry-after", "120")],
      elapsed_ms := 0, retry_count := 0, was_rate_limited := false }
    "120" 120 (by decide) (Or.inr ⟨by decide, by decide⟩)

/-- C2: every logical request started at attempt 0 returns an envelope with
`retry_count ≤ maxRetries` (each physical attempt `k` stamps `retry_count = k`,
so at most `maxRetries + 1` physical attempts occur), and a 429 received
when `attempt ≥ maxRetries` stops the retrying at once: the client returns
that very 429 envelope flagged `was_rate_limited = true`. -/
theorem retry_budget_bounds_attempts :
    ∀ (cfg : RetryPolicyConfig) (t : Transport) (method : String) (st : ClientState),
      (makeRequest cfg t method st 0).1.retry_count ≤ cfg.maxRetries ∧
      (∀ (st' : ClientState) (a : Nat), cfg.maxRetries ≤ a →
        (t.resp method a).status_code = 429 →
        makeRequest cfg t method st' a =
          ({ envelopeOf t method a with was_rate_limited := true }, bumpState t st' a)) := by
  intro cfg t method st
  refine ⟨?_, ?_⟩
  · exact makeRequest_retry_count_le (cfg.maxRetries + 1) cfg t method st 0
      (by omega) (Nat.zero_le _)
  · intro st' a ha h429
    exact makeRequest_stop cfg t method st' a h429 (Or.inr ha)

/-- Witness for `retry_budget_bounds_attempts`: an always-429 transport
with the source's constants. -/
theorem retry_budget_bounds_attempts_witness :
    (makeRequest defaultConfig t429 "GET" ClientState.init 0).1.retry_count ≤
      defaultConfig.maxRetries ∧
      makeRequest defaultConfig t429 "GET" ClientState.init 3 =
        ({ envelopeOf t429 "GET" 3 with was_rate_limited := true },
          bumpState t429 ClientState.init 3) :=
  ⟨(retry_budget_bounds_attempts defaultConfig t429 "GET" ClientState.init).1,
    (retry_budget_bounds_attempts defaultConfig t429 "GET" ClientState.init).2
      ClientState.init 3 (by decide) rfl⟩

/-- C3: a non-429 response resets `consecutive_rate_limits` to 0 and is
returned as-is; a 429 bumps the counter by exactly 1 (visible in
`bumpState`/`retryState`), and when the bumped counter reaches
`circuitBreakerThreshold` the client returns that 429 envelope immediately
— the returned envelope is the attempt-`a` envelope, so no further physical
attempt happens regardless of remaining retry budget; otherwise, within
budget, it retries at `a + 1` carrying the incremented counter. -/
theorem circuit_breaker_and_reset :
    ∀ (cfg : RetryPolicyConfig) (t : Transport) (method : String)
      (st : ClientState) (a : Nat),
      ((t.resp method a).status_code ≠ 429 →
        makeRequest cfg t method st a =
          (envelopeOf t method a, { st with consecutive_rate_limits := 0 })) ∧
      ((t.resp method a).status_code = 429 →
        cfg.circuitBreakerThreshold ≤ st.consecutive_rate_limits + 1 →
        makeRequest cfg t method st a =
          ({ envelopeOf t method a with was_rate_limited := true }, bumpState t st a)) ∧
      ((t.resp method a).status_code = 429 →
        st.consecutive_rate_limits + 1 < cfg.circuitBreakerThreshold →
        a < cfg.maxRetries →
        makeRequest cfg t method st a =
          makeRequest cfg t method (retryState cfg t method st a) (a + 1)) := by
  intro cfg t method st a
  exact ⟨makeRequest_not429 cfg t method st a,
    fun h429 hbrk => makeRequest_stop cfg t method st a h429 (Or.inl hbrk),
    makeRequest_continue cfg t method st a⟩

/-- A session state that has already seen four consecutive 429 responses. -/
def st4 : ClientState :=
  { metrics := RateLimitMetrics.init, consecutive_rate_limits := 4 }

/-- Witness for `circuit_breaker_and_reset`: with four prior consecutive
429s, a fifth trips the breaker at once. -/
theorem circuit_breaker_and_reset_witness :
    makeRequest defaultConfig t429 "GET" st4 0 =
      ({ envelopeOf t429 "GET" 0 with was_rate_limited := true }, bumpState t429 st4 0) :=
  (circuit_breaker_and_reset defaultConfig t429 "GET" st4 0).2.1 rfl (by decide)

/-- C10: in the client's retry flow each 429 calls `record_rate_limit 0`
(the `bumpState` conjunct), the computed wait is added straight onto
`total_backoff_seconds` bypassing `record_rate_limit` (the `retryState`
conjuncts, where `max_backoff_seconds` only sees `max · 0`), and
consequently a session whose `max_backoff_seconds` starts at its initial
value 0 still has `max_backoff_seconds = 0` after any request, however many
retries and waits occurred. -/
theorem max_backoff_never_updated :
    ∀ (cfg : RetryPolicyConfig) (t : Transport) (method : String)
      (st : ClientState) (a : Nat),
      (bumpState t st a).metrics = st.metrics.record_rate_limit (t.clock a) 0 ∧
      (retryState cfg t method st a).metrics.total_backoff_seconds =
        st.metrics.total_backoff_seconds + 0 + backoffAt cfg t method a ∧
      (retryState cfg t method st a).metrics.max_backoff_seconds =
        max st.metrics.max_backoff_seconds 0 ∧
      (st.metrics.max_backoff_seconds = 0 →
        (makeRequest cfg t method st a).2.metrics.max_backoff_seconds = 0) := by
  intro cfg t method st a
  refine ⟨rfl, ?_, retryState_max_backoff cfg t method st a, ?_⟩
  · simp [retryState, bumpState, RateLimitMetrics.record_retry,
      RateLimitMetrics.record_rate_limit]
  · intro h0
    exact makeRequest_max_backoff_zero (cfg.maxRetries + 1 - a) cfg t method st a le_rfl h0

/-- Witness for `max_backoff_never_updated`: a full retry run against an
always-429 transport leaves `max_backoff_seconds` at 0. -/
theorem max_backoff_never_updated_witness :
    (makeRequest defaultConfig t429 "GET" ClientState.init 0).2.metrics.max_backoff_seconds
      = 0 :=
  (max_backoff_never_updated defaultConfig t429 "GET" ClientState.init 0).2.2.2 rfl

/-- Modelled from the spec: the sync client `tests/api/base_api_test.py`,
imported by `src/tests/api/test_rate_limiting.py`, is missing from the
repository snapshot.  Per spec §4.2 its request path carries an
`allow_rate_limit_retry` flag: when false the retry branch is skipped
entirely — a first 429 is returned immediately with `retryCount = 0` and
`wasRateLimited = true` and neither `consecutiveRateLimits` nor the metrics
are touched; when true the ordinary retry loop runs. -/
def requestWithFlag (cfg : RetryPolicyConfig) (t : Transport) (method : String)
    (st : ClientState) (allow_rate_limit_retry : Bool) : ApiResponse × ClientState :=
  if allow_rate_limit_retry then
    makeRequest cfg t method st 0
  else
    let api_response := envelopeOf t method 0
    if api_response.status_code = 429 then
      ({ api_response with was_rate_limited := true }, st)
    else
      (api_response, { st with consecutive_rate_limits := 0 })

/-- Modelled from the spec: the sync client's GET verb with its
`allow_rate_limit_retry` flag (the spec defaults it to true). -/
def getRequest (cfg : RetryPolicyConfig) (t : Transport) (st : ClientState)
    (allow_rate_limit_retry : Bool) : ApiResponse × ClientState :=
  requestWithFlag cfg t "GET" st allow_rate_limit_retry

/-- Modelled from the spec: the sync client's POST verb. -/
def postRequest (cfg : RetryPolicyConfig) (t : Transport) (st : ClientState)
    (allow_rate_limit_retry : Bool) : ApiResponse × ClientState :=
  requestWithFlag cfg t "POST" st allow_rate_limit_retry

/-- Modelled from the spec: the sync client's PUT verb. -/
def putRequest (cfg : RetryPolicyConfig) (t : Transport) (st : ClientState)
    (allow_rate_limit_retry : Bool) : ApiResponse × ClientState :=
  requestWithFlag cfg t "PUT" st allow_rate_limit_retry

/-- Modelled from the spec: the sync client's PATCH verb. -/
def patchRequest (cfg : RetryPolicyConfig) (t : Transport) (st : ClientState)
    (allow_rate_limit_retry : Bool) : ApiResponse × ClientState :=
  requestWithFlag cfg t "PATCH" st allow_rate_limit_retry

/-- Modelled from the spec: the sync client's DELETE verb. -/
def deleteRequest (cfg : RetryPolicyConfig) (t : Transport) (st : ClientState)
    (allow_rate_limit_retry : Bool) : ApiResponse × ClientState :=
  requestWithFlag cfg t "DELETE" st allow_rate_limit_retry

lemma requestWithFlag_false_429 (cfg : RetryPolicyConfig) (t : Transport)
    (method : String) (st : ClientState)
    (h : (t.resp method 0).status_code = 429) :
    requestWithFlag cfg t method st false =
      ({ envelopeOf t method 0 with was_rate_limited := true }, st) := by
  simp only [requestWithFlag, Bool.false_eq_true, if_false, envelopeOf_status_code, if_pos h]

/-- C6: every verb of the (spec-modelled) sync client takes the
`allow_rate_limit_retry` flag; with the flag false and a first response of
429, the envelope comes back immediately with `retry_count = 0` and
`was_rate_limited = true` while the session state — `consecutive_rate_limits`
and the metrics — is returned untouched (and, the execution being a pure
fold with no recursion, nothing suspends); with the flag true the verb is
the ordinary retry loop. -/
theorem verbs_flag_disables_retry :
    ∀ (cfg : RetryPolicyConfig) (t : Transport) (st : ClientState),
      ((t.resp "GET" 0).status_code = 429 →
        getRequest cfg t st false =
          ({ envelopeOf t "GET" 0 with was_rate_limited := true }, st) ∧
        (getRequest cfg t st false).1.retry_count = 0) ∧
      ((t.resp "POST" 0).status_code = 429 →
        postRequest cfg t st false =
          ({ envelopeOf t "POST" 0 with was_rate_limited := true }, st) ∧
        (postRequest cfg t st false).1.retry_count = 0) ∧
      ((t.resp "PUT" 0).status_code = 429 →
        putRequest cfg t st false =
          ({ envelopeOf t "PUT" 0 with was_rate_limited := true }, st) ∧
        (putRequest cfg t st false).1.retry_count = 0) ∧
      ((t.resp "PATCH" 0).status_code = 429 →
        patchRequest cfg t st false =
          ({ envelopeOf t "PATCH" 0 with was_rate_limited := true }, st) ∧
        (patchRequest cfg t st false).1.retry_count = 0) ∧
      ((t.resp "DELETE" 0).status_code = 429 →
        deleteRequest cfg t st false =
          ({ envelopeOf t "DELETE" 0 with was_rate_limited := true }, st) ∧
        (deleteRequest cfg t st false).1.retry_count = 0) ∧
      (∀ method, requestWithFlag cfg t method st true = makeRequest cfg t method st 0) := by
  intro cfg t st
  have step : ∀ method, (t.resp method 0).status_code = 429 →
      requestWithFlag cfg t method st false =
        ({ envelopeOf t method 0 with was_rate_limited := true }, st) ∧
      (requestWithFlag cfg t method st false).1.retry_count = 0 := by
    intro method h
    refine ⟨requestWithFlag_false_429 cfg t method st h, ?_⟩
    rw [requestWithFlag_false_429 cfg t method st h]
    rfl
  exact ⟨step "GET", step "POST", step "PUT", step "PATCH", step "DELETE",
    fun method => rfl⟩

/-- Witness for `verbs_flag_disables_retry`: the GET verb against an
always-429 transport. -/
theorem verbs_flag_disables_retry_witness :
    getRequest defaultConfig t429 ClientState.init false =
      ({ envelopeOf t429 "GET" 0 with was_rate_limited := true }, ClientState.init) ∧
      (getRequest defaultConfig t429 ClientState.init false).1.retry_count = 0 :=
  (verbs_flag_disables_retry defaultConfig t429 ClientState.init).1 rfl

end TrainingPortal
